import Mathlib

/-!
Verification of `src/export/demo-package/utils/pythonTools/search_web_py.py`,
a command-line stub that parses a JSON argument, validates a `query` field,
and emits either a placeholder success payload or a structured error payload.

The embedding models JSON values structurally (`JSONVal`), Python truthiness
(`truthy`), Python `dict.get` including the `AttributeError` raised when the
receiver is not a dict (`pyGet`), and the entry point `main` over the list of
positional arguments beyond the program name.  The library call `json.loads`
is kept abstract: `main` is parameterised by a function
`loads : String → Except PyExc JSONVal`, and theorems hypothesise its result
on the first argument, exactly as the claims do ("whose first positional
argument parses as ...").
-/

namespace SearchWeb

/-- Structural model of a JSON value (the result of `json.loads`).
Numbers are modelled as integers; no claim involves fractional numbers.
Objects are association lists; for duplicate keys `json.loads` keeps the
last binding, which `dictLookup` reproduces. -/
inductive JSONVal where
  | null : JSONVal
  | bool : Bool → JSONVal
  | num : Int → JSONVal
  | str : String → JSONVal
  | arr : List JSONVal → JSONVal
  | obj : List (String × JSONVal) → JSONVal

/-- Exceptions that can reach the `try`/`except` structure of `main`:
`json.JSONDecodeError` from `json.loads`, and any other exception
(modelled by its `str(e)` rendering, e.g. the `AttributeError` raised by
`.get` on a non-dict). -/
inductive PyExc where
  | jsonDecodeError : PyExc
  | otherExc : String → PyExc
  deriving Repr, DecidableEq

/-- Python truthiness of a JSON-decoded value, as tested by `if not query:`.
Empty string, zero, `False`, `None`, empty list and empty dict are falsy;
everything else is truthy. -/
def truthy : JSONVal → Bool
  | .null => false
  | .bool b => b
  | .num n => n != 0
  | .str s => s != ""
  | .arr xs => !xs.isEmpty
  | .obj fs => !fs.isEmpty

/-- Python type name of a decoded JSON value, as it appears in the
`AttributeError` message. -/
def pyTypeName : JSONVal → String
  | .null => "NoneType"
  | .bool _ => "bool"
  | .num _ => "int"
  | .str _ => "str"
  | .arr _ => "list"
  | .obj _ => "dict"

/-- Lookup of a key in a decoded JSON object.  `json.loads` keeps the last
binding for a duplicated key, so the search runs over the reversed list. -/
def dictLookup (fields : List (String × JSONVal)) (k : String) : Option JSONVal :=
  (fields.reverse.find? (fun p => p.1 == k)).map (·.2)

/-- The `AttributeError` message produced by accessing `.get` on a
non-dict value: `'<type>' object has no attribute 'get'`. -/
def attrErrMsg (v : JSONVal) : String :=
  "\x27" ++ pyTypeName v ++ "\x27 object has no attribute \x27get\x27"

/-- Model of `args.get('query', default)`: on a dict, lookup with default;
on any other value, raise `AttributeError` naming the missing attribute
`get`. -/
def pyGet (v : JSONVal) (k : String) (dflt : JSONVal) : Except PyExc JSONVal :=
  match v with
  | .obj fields => .ok ((dictLookup fields k).getD dflt)
  | other => .error (.otherExc (attrErrMsg other))

/-- Observable outcome of one invocation: the JSON values printed to
standard output and to the error stream, and the exit code. -/
structure Output where
  stdout : List JSONVal
  stderr : List JSONVal
  exitCode : Nat

/-- Error payload written to the error stream: the object with the single
key `error` mapping to the given string. -/
def errPayload (msg : String) : JSONVal :=
  .obj [("error", .str msg)]

/-- Success payload written to standard output: `query` echoed back,
`results` an empty array, `message` the fixed placeholder string. -/
def resultPayload (query : JSONVal) : JSONVal :=
  .obj [("query", query),
        ("results", .arr []),
        ("message", .str "Web search functionality not yet implemented")]

/-- Body of the `try` block after `json.loads` succeeded: read `query` with
default `''`; if falsy, error-stream `Empty search query` and exit 1;
otherwise print the placeholder result and fall through to exit 0.
The `sys.exit(1)` here raises `SystemExit`, which is not an `Exception`
and so is not caught by the handlers below; it is therefore part of the
normal outcome, not of the exception channel. -/
def tryBody (parsed : JSONVal) : Except PyExc Output :=
  match pyGet parsed "query" (.str "") with
  | .error e => .error e
  | .ok query =>
      if !truthy query then
        .ok ⟨[], [errPayload "Empty search query"], 1⟩
      else
        .ok ⟨[resultPayload query], [], 0⟩

/-- Entry point `main`, over the positional arguments beyond the program
name (`argv = sys.argv[1:]`) and the abstract `json.loads`.  Mirrors the
source: missing-argument check, then `try: loads; get; validate; print`
with `except json.JSONDecodeError` and `except Exception`. -/
def main (argv : List String) (loads : String → Except PyExc JSONVal) : Output :=
  match argv with
  | [] => ⟨[], [errPayload "No search query provided"], 1⟩
  | a :: _ =>
      match loads a with
      | .error .jsonDecodeError => ⟨[], [errPayload "Invalid JSON arguments"], 1⟩
      | .error (.otherExc s) => ⟨[], [errPayload s], 1⟩
      | .ok parsed =>
          match tryBody parsed with
          | .ok out => out
          | .error .jsonDecodeError => ⟨[], [errPayload "Invalid JSON arguments"], 1⟩
          | .error (.otherExc s) => ⟨[], [errPayload s], 1⟩

/-- Parse function used by concrete witnesses: returns a fixed parse
result for every argument string, standing in for `json.loads` on the one
argument actually consulted. -/
def constLoads (r : Except PyExc JSONVal) : String → Except PyExc JSONVal :=
  fun _ => r

/-- Whether a decoded JSON value is an object (a Python `dict`), the only
shape on which `.get` does not raise `AttributeError`. -/
def isObj : JSONVal → Bool
  | .obj _ => true
  | _ => false

end SearchWeb

namespace SearchWeb

/-- C1: if the first positional argument parses as a JSON object whose
`query` key maps to a non-empty string `q`, the program writes exactly the
payload with that query, empty results, and the placeholder message to
standard output, exits 0, and writes nothing to the error stream. -/
theorem main_nonempty_query_success
    (argv : List String) (loads : String → Except PyExc JSONVal)
    (a : String) (rest : List String) (fields : List (String × JSONVal)) (q : String)
    (hargv : argv = a :: rest)
    (hload : loads a = .ok (.obj fields))
    (hq : dictLookup fields "query" = some (.str q))
    (hne : q ≠ "") :
    main argv loads = ⟨[resultPayload (.str q)], [], 0⟩ := by
  subst hargv
  simp only [main, hload, tryBody, pyGet, hq, Option.getD_some]
  have : truthy (.str q) = true := by
    simp [truthy, hne]
  simp [this]

/-- Witness for C1 at the concrete invocation of the spec's example,
argument `\x7b"query": "cats"\x7d`. -/
theorem main_nonempty_query_success_witness :
    main ["arg"] (constLoads (.ok (.obj [("query", .str "cats")]))) =
      ⟨[resultPayload (.str "cats")], [], 0⟩ :=
  main_nonempty_query_success _ _ "arg" [] [("query", .str "cats")] "cats"
    rfl rfl rfl (by decide)

/-- C2: if the first positional argument parses as a JSON object in which
`query` is absent or maps to the empty string, the program writes the
`Empty search query` error payload to the error stream and exits 1. -/
theorem main_empty_query_error
    (argv : List String) (loads : String → Except PyExc JSONVal)
    (a : String) (rest : List String) (fields : List (String × JSONVal))
    (hargv : argv = a :: rest)
    (hload : loads a = .ok (.obj fields))
    (hq : dictLookup fields "query" = none ∨ dictLookup fields "query" = some (.str "")) :
    main argv loads = ⟨[], [errPayload "Empty search query"], 1⟩ := by
  subst hargv
  simp only [main, hload, tryBody, pyGet]
  rcases hq with hq | hq <;> simp [hq, truthy]

/-- Witness for C2 at the concrete invocation with argument `\x7b\x7d`
(empty object: `query` absent). -/
theorem main_empty_query_error_witness :
    main ["arg"] (constLoads (.ok (.obj []))) =
      ⟨[], [errPayload "Empty search query"], 1⟩ :=
  main_empty_query_error _ _ "arg" [] [] rfl rfl (Or.inl rfl)

/-- Counterexample to C3: the argument `5` is valid JSON without a `query`
field, yet the program does not emit the `Empty search query` error — the
attribute access `args.get` on the decoded integer raises
`AttributeError`, which the generic handler surfaces instead. -/
theorem main_nonobject_not_empty_query :
    main ["5"] (constLoads (.ok (.num 5))) ≠
      ⟨[], [errPayload "Empty search query"], 1⟩ := by
  intro h
  have hs := congrArg Output.stderr h
  simp only [main, constLoads, tryBody, pyGet, attrErrMsg, pyTypeName] at hs
  simp [errPayload] at hs

/-- C3 amended: only for a decoded JSON object is an absent `query` field
treated as the empty string (the C2 behaviour); for valid JSON that is not
an object (number, string, array, boolean, null), `.get` raises
`AttributeError`, which is caught by the generic handler and surfaced as
the error payload with message `'<type>' object has no attribute 'get'`
on the error stream, with exit code 1. -/
theorem main_nonobject_attribute_error
    (argv : List String) (loads : String → Except PyExc JSONVal)
    (a : String) (rest : List String) (parsed : JSONVal)
    (hargv : argv = a :: rest)
    (hload : loads a = .ok parsed)
    (hobj : isObj parsed = false) :
    main argv loads = ⟨[], [errPayload (attrErrMsg parsed)], 1⟩ := by
  subst hargv
  cases parsed <;> simp_all [main, tryBody, pyGet, isObj]

/-- Witness for the amended C3 at the concrete invocation with
argument `5`. -/
theorem main_nonobject_attribute_error_witness :
    main ["5"] (constLoads (.ok (.num 5))) =
      ⟨[], [errPayload (attrErrMsg (.num 5))], 1⟩ :=
  main_nonobject_attribute_error _ _ "5" [] (.num 5) rfl rfl rfl

/-- C4: with no positional argument beyond the program name, the program
writes the `No search query provided` error payload to the error stream
and exits 1, independently of the parse function (nothing is parsed). -/
theorem main_no_argument_error (loads : String → Except PyExc JSONVal) :
    main [] loads = ⟨[], [errPayload "No search query provided"], 1⟩ :=
  rfl

/-- C5: if the first positional argument is present but fails to parse as
JSON (`json.JSONDecodeError`), the program writes the
`Invalid JSON arguments` error payload to the error stream and exits 1. -/
theorem main_invalid_json_error
    (argv : List String) (loads : String → Except PyExc JSONVal)
    (a : String) (rest : List String)
    (hargv : argv = a :: rest)
    (hload : loads a = .error .jsonDecodeError) :
    main argv loads = ⟨[], [errPayload "Invalid JSON arguments"], 1⟩ := by
  subst hargv
  simp [main, hload]

/-- Witness for C5 at the concrete invocation with argument `not-json`. -/
theorem main_invalid_json_error_witness :
    main ["not-json"] (constLoads (.error .jsonDecodeError)) =
      ⟨[], [errPayload "Invalid JSON arguments"], 1⟩ :=
  main_invalid_json_error _ _ "not-json" [] rfl rfl

/-- Every run of `main` either succeeds with a single result payload on
standard output, exit code 0 and an empty error stream, or fails with an
empty standard output, a single error payload on the error stream and
exit code 1.  Shared case analysis behind the totality and
stream-separation theorems. -/
theorem main_cases (argv : List String) (loads : String → Except PyExc JSONVal) :
    (∃ q, main argv loads = ⟨[resultPayload q], [], 0⟩) ∨
    (∃ s, main argv loads = ⟨[], [errPayload s], 1⟩) := by
  rcases argv with _ | ⟨a, rest⟩
  · exact Or.inr ⟨"No search query provided", rfl⟩
  · rcases hl : loads a with e | parsed
    · rcases e with _ | s
      · exact Or.inr ⟨"Invalid JSON arguments", by simp [main, hl]⟩
      · exact Or.inr ⟨s, by simp [main, hl]⟩
    · rcases parsed with _ | b | n | s | xs | fields
      case obj =>
        rcases ht : truthy ((dictLookup fields "query").getD (.str "")) with _ | _
        · exact Or.inr ⟨"Empty search query", by simp [main, hl, tryBody, pyGet, ht]⟩
        · exact Or.inl ⟨(dictLookup fields "query").getD (.str ""),
            by simp [main, hl, tryBody, pyGet, ht]⟩
      case null => exact Or.inr ⟨attrErrMsg .null, by simp [main, hl, tryBody, pyGet]⟩
      case bool => exact Or.inr ⟨attrErrMsg (.bool b), by simp [main, hl, tryBody, pyGet]⟩
      case num => exact Or.inr ⟨attrErrMsg (.num n), by simp [main, hl, tryBody, pyGet]⟩
      case str => exact Or.inr ⟨attrErrMsg (.str s), by simp [main, hl, tryBody, pyGet]⟩
      case arr => exact Or.inr ⟨attrErrMsg (.arr xs), by simp [main, hl, tryBody, pyGet]⟩

/-- C6: the program is total at its interface — for every argument list
and every behaviour of the parser, the run terminates with exit code 0 or
exit code 1, and every failure is surfaced as an error-object payload on
the error stream. -/
theorem main_total (argv : List String) (loads : String → Except PyExc JSONVal) :
    (main argv loads).exitCode = 0 ∨
    ((main argv loads).exitCode = 1 ∧
      ∃ s, (main argv loads).stderr = [errPayload s]) := by
  rcases main_cases argv loads with ⟨q, hq⟩ | ⟨s, hs⟩
  · rw [hq]; exact Or.inl rfl
  · rw [hs]; exact Or.inr ⟨rfl, s, rfl⟩

/-- C7: stream separation — standard output is non-empty exactly when the
exit code is 0, the error stream is non-empty exactly when the exit code
is 1, and in that case the error stream holds a single JSON object with
the one key `error` mapping to a string. -/
theorem main_stream_separation
    (argv : List String) (loads : String → Except PyExc JSONVal) :
    ((main argv loads).stdout ≠ [] ↔ (main argv loads).exitCode = 0) ∧
    ((main argv loads).stderr ≠ [] ↔ (main argv loads).exitCode = 1) ∧
    ((main argv loads).exitCode = 1 →
      ∃ s, (main argv loads).stderr = [errPayload s]) := by
  rcases main_cases argv loads with ⟨q, hq⟩ | ⟨s, hs⟩
  · rw [hq]
    refine ⟨⟨fun _ => rfl, fun _ => by simp⟩, ⟨fun h => absurd rfl h, fun h => by simp at h⟩,
      fun h => by simp at h⟩
  · rw [hs]
    exact ⟨⟨fun h => absurd rfl h, fun h => by simp at h⟩, ⟨fun _ => rfl, fun _ => by simp⟩,
      fun _ => ⟨s, rfl⟩⟩

/-- C8: determinism — two invocations with identical argument lists and
identical parser behaviour produce identical standard output, identical
error-stream content and identical exit codes; the result is a pure
function of the inputs with no hidden state. -/
theorem main_deterministic
    (argv₁ argv₂ : List String) (loads₁ loads₂ : String → Except PyExc JSONVal)
    (hargv : argv₁ = argv₂) (hloads : loads₁ = loads₂) :
    (main argv₁ loads₁).stdout = (main argv₂ loads₂).stdout ∧
    (main argv₁ loads₁).stderr = (main argv₂ loads₂).stderr ∧
    (main argv₁ loads₁).exitCode = (main argv₂ loads₂).exitCode := by
  subst hargv; subst hloads
  exact ⟨rfl, rfl, rfl⟩

/-- Witness for C8 at a concrete repeated invocation. -/
theorem main_deterministic_witness :
    (main ["x"] (constLoads (.ok (.obj [])))).stdout =
      (main ["x"] (constLoads (.ok (.obj [])))).stdout ∧
    (main ["x"] (constLoads (.ok (.obj [])))).stderr =
      (main ["x"] (constLoads (.ok (.obj [])))).stderr ∧
    (main ["x"] (constLoads (.ok (.obj [])))).exitCode =
      (main ["x"] (constLoads (.ok (.obj [])))).exitCode :=
  main_deterministic _ _ _ _ rfl rfl

/-- C9: the emptiness test on `query` is Python truthiness, not string
emptiness — when the decoded object's `query` key holds any truthy value
the run succeeds with exit code 0 and echoes the value verbatim in the
payload, and when it holds any falsy value (0, false, null, empty array)
the run fails with the `Empty search query` payload and exit code 1. -/
theorem main_query_truthiness
    (argv : List String) (loads : String → Except PyExc JSONVal)
    (a : String) (rest : List String) (fields : List (String × JSONVal)) (v : JSONVal)
    (hargv : argv = a :: rest)
    (hload : loads a = .ok (.obj fields))
    (hv : dictLookup fields "query" = some v) :
    (truthy v = true → main argv loads = ⟨[resultPayload v], [], 0⟩) ∧
    (truthy v = false → main argv loads = ⟨[], [errPayload "Empty search query"], 1⟩) := by
  subst hargv
  constructor <;> intro ht <;> simp [main, hload, tryBody, pyGet, hv, ht]

/-- Witness for C9: the truthy non-string `5` succeeds and is echoed, and
the falsy non-string `[]` yields the empty-query error. -/
theorem main_query_truthiness_witness :
    main ["a"] (constLoads (.ok (.obj [("query", .num 5)]))) =
      ⟨[resultPayload (.num 5)], [], 0⟩ ∧
    main ["b"] (constLoads (.ok (.obj [("query", .arr [])]))) =
      ⟨[], [errPayload "Empty search query"], 1⟩ :=
  ⟨(main_query_truthiness _ _ "a" [] [("query", .num 5)] (.num 5) rfl rfl rfl).1 rfl,
   (main_query_truthiness _ _ "b" [] [("query", .arr [])] (.arr []) rfl rfl rfl).2 rfl⟩

/-- C10: the observable behaviour depends only on the first positional
argument — invocations sharing the same first argument produce the same
output whatever further arguments follow. -/
theorem main_ignores_extra_args
    (a : String) (rest₁ rest₂ : List String)
    (loads : String → Except PyExc JSONVal) :
    main (a :: rest₁) loads = main (a :: rest₂) loads :=
  rfl

end SearchWeb
